import Mathlib

/-!
# Shallow embedding of the mock-gateway server

This file embeds the core of the `mock-gateway` repository (a mock
chat-platform WebSocket gateway written in Rust) in Lean 4 and proves
properties of its per-connection protocol state machine, its session
registry, its write side (dispatch sequence counter) and its script
driver.

The embedding follows the Rust sources:
  * `src/session.rs`  — session registry (`Sessions`, `Session`)
  * `src/config.rs`   — configuration record and intent gating
  * `src/handler.rs`  — gateway envelope, write handle, connection state
  * `src/script.rs`   — script actions and the per-connection driver

Rust `HashMap` is modelled as an association list with insert-overwrite
semantics; the random 32-character session id produced by
`create_session` is passed in as an explicit parameter (`freshId`);
the atomic `fetch_add` on the sequence counter becomes explicit state
passing (the Rust `fetch_add` returns the *previous* value).
-/

set_option autoImplicit false

namespace MockGateway

/-- Gateway operation codes (`twilight_model::gateway::OpCode`,
as consumed by `handler.rs`). -/
inductive OpCode where
  | Dispatch
  | Heartbeat
  | Identify
  | PresenceUpdate
  | VoiceStateUpdate
  | Resume
  | Reconnect
  | RequestGuildMembers
  | InvalidSession
  | Hello
  | HeartbeatAck
  deriving DecidableEq, Repr

/-- JSON values (`simd_json::OwnedValue`), used for raw dispatch payloads. -/
inductive JsonValue where
  | null
  | bool (b : Bool)
  | num (n : Int)
  | str (s : String)
  | arr (xs : List JsonValue)
  | obj (fields : List (String × JsonValue))

/-- Shard id: a pair `(index, total)` (`twilight_model::gateway::ShardId`). -/
abbrev ShardId := Nat × Nat

/-- The fields of `IdentifyInfo` consumed by `handler.rs` and
`session.rs`: token, intents bitset, compression flag and shard. -/
structure IdentifyInfo where
  token : String
  intents : Nat
  compress : Bool
  shard : Option ShardId
  deriving DecidableEq, Repr

/-- The fields of `ResumeInfo` consumed by `handler.rs`:
token, claimed session id and last received sequence. -/
structure ResumeInfo where
  token : String
  sessionId : String
  seq : Nat
  deriving DecidableEq, Repr

/-- `session.rs`: a session record, created from an Identify payload. -/
structure Session where
  shardId : Option ShardId
  compress : Bool
  intents : Nat
  deriving DecidableEq, Repr

/-- `impl From<&IdentifyInfo> for Session` in `session.rs`. -/
def Session.fromIdentify (value : IdentifyInfo) : Session :=
  { shardId := value.shard
    compress := value.compress
    intents := value.intents }

/-- `session.rs`: the registry mapping session id to session record.
The Rust `HashMap<SessionId, Session>` is modelled as an association
list whose `insert` overwrites an existing key. -/
abbrev Sessions := List (String × Session)

namespace Sessions

/-- `Sessions::new`. -/
def new : Sessions := []

/-- `HashMap::insert` (used inside `Sessions::create_session`):
the new binding replaces any existing binding of the same key. -/
def insert (m : Sessions) (sessionId : String) (s : Session) : Sessions :=
  (sessionId, s) :: m.filter (fun p => !(p.1 == sessionId))

/-- `Sessions::create_session`: build the record from the identify
payload and insert it under the (randomly generated, here explicitly
supplied) 32-character id; the id is returned to the caller. -/
def createSession (m : Sessions) (freshId : String) (identify : IdentifyInfo) :
    Sessions :=
  m.insert freshId (Session.fromIdentify identify)

/-- `Sessions::get_session`: cloned lookup. -/
def getSession (m : Sessions) (sessionId : String) : Option Session :=
  (m.find? (fun p => p.1 == sessionId)).map Prod.snd

/-- `Sessions::exists`: `contains_key`. -/
def existsId (m : Sessions) (sessionId : String) : Bool :=
  m.any (fun p => p.1 == sessionId)

/-- `Sessions::destroy_session`: `HashMap::remove`, result discarded. -/
def destroySession (m : Sessions) (sessionId : String) : Sessions :=
  m.filter (fun p => !(p.1 == sessionId))

end Sessions

/-! ## Configuration (`config.rs`) -/

/-- `config.rs`: fault-injection scenarios. -/
structure Scenarios where
  unansweredHeartbeats : Bool
  expiredSessions : Bool
  deriving DecidableEq, Repr

/-- `config.rs`: the bot identity record. -/
structure Bot where
  token : String
  applicationFlags : Nat
  applicationId : Nat
  userFlags : Option Nat
  userId : Nat
  avatar : Option String
  discriminator : Nat
  name : String
  publicFlags : Option Nat
  deriving DecidableEq, Repr

/-- `config.rs`: advisory mock-data counts. -/
structure MockData where
  guilds : Nat
  users : Nat
  channels : Nat
  voiceStates : Nat
  deriving DecidableEq, Repr

/-- `config.rs`: the immutable process-wide configuration. -/
structure Config where
  logLevel : String
  port : Nat
  externallyAccessibleUrl : String
  scenarios : Scenarios
  bot : Bot
  mockData : MockData
  deriving DecidableEq, Repr

/-! Intent bits (`twilight_model::gateway::Intents`) and application flag
bits (`twilight_model::oauth::ApplicationFlags`) used by
`Bot::allowed_intents`. -/

def Intents.GUILDS : Nat := 1 <<< 0
def Intents.GUILD_MEMBERS : Nat := 1 <<< 1
def Intents.GUILD_BANS : Nat := 1 <<< 2
def Intents.GUILD_EMOJIS_AND_STICKERS : Nat := 1 <<< 3
def Intents.GUILD_INTEGRATIONS : Nat := 1 <<< 4
def Intents.GUILD_WEBHOOKS : Nat := 1 <<< 5
def Intents.GUILD_INVITES : Nat := 1 <<< 6
def Intents.GUILD_VOICE_STATES : Nat := 1 <<< 7
def Intents.GUILD_PRESENCES : Nat := 1 <<< 8
def Intents.GUILD_MESSAGES : Nat := 1 <<< 9
def Intents.GUILD_MESSAGE_REACTIONS : Nat := 1 <<< 10
def Intents.GUILD_MESSAGE_TYPING : Nat := 1 <<< 11
def Intents.DIRECT_MESSAGES : Nat := 1 <<< 12
def Intents.DIRECT_MESSAGE_REACTIONS : Nat := 1 <<< 13
def Intents.DIRECT_MESSAGE_TYPING : Nat := 1 <<< 14
def Intents.MESSAGE_CONTENT : Nat := 1 <<< 15
def Intents.GUILD_SCHEDULED_EVENTS : Nat := 1 <<< 16
def Intents.AUTO_MODERATION_CONFIGURATION : Nat := 1 <<< 20
def Intents.AUTO_MODERATION_EXECUTION : Nat := 1 <<< 21

/-- `Intents::all()`: the union of every defined intent bit. -/
def Intents.all : Nat :=
  Intents.GUILDS ||| Intents.GUILD_MEMBERS ||| Intents.GUILD_BANS |||
  Intents.GUILD_EMOJIS_AND_STICKERS ||| Intents.GUILD_INTEGRATIONS |||
  Intents.GUILD_WEBHOOKS ||| Intents.GUILD_INVITES |||
  Intents.GUILD_VOICE_STATES ||| Intents.GUILD_PRESENCES |||
  Intents.GUILD_MESSAGES ||| Intents.GUILD_MESSAGE_REACTIONS |||
  Intents.GUILD_MESSAGE_TYPING ||| Intents.DIRECT_MESSAGES |||
  Intents.DIRECT_MESSAGE_REACTIONS ||| Intents.DIRECT_MESSAGE_TYPING |||
  Intents.MESSAGE_CONTENT ||| Intents.GUILD_SCHEDULED_EVENTS |||
  Intents.AUTO_MODERATION_CONFIGURATION ||| Intents.AUTO_MODERATION_EXECUTION

def ApplicationFlags.GATEWAY_PRESENCE : Nat := 1 <<< 12
def ApplicationFlags.GATEWAY_PRESENCE_LIMITED : Nat := 1 <<< 13
def ApplicationFlags.GATEWAY_GUILD_MEMBERS : Nat := 1 <<< 14
def ApplicationFlags.GATEWAY_GUILD_MEMBERS_LIMITED : Nat := 1 <<< 15
def ApplicationFlags.GATEWAY_MESSAGE_CONTENT : Nat := 1 <<< 18
def ApplicationFlags.GATEWAY_MESSAGE_CONTENT_LIMITED : Nat := 1 <<< 19

/-- Bitflags `intersects`: the two sets share at least one bit. -/
def flagsIntersect (a b : Nat) : Bool := a &&& b != 0

/-- Bitflags `remove` over a 64-bit word: clear the bits of `b` in `a`. -/
def flagsRemove (a b : Nat) : Nat := a &&& ((2 ^ 64 - 1) ^^^ b)

/-- Bitflags `contains`: every bit of `b` is set in `a`. -/
def flagsContain (a b : Nat) : Bool := a &&& b == b

/-- `Bot::allowed_intents` in `config.rs`: start from all intents and
remove `GUILD_PRESENCES` / `GUILD_MEMBERS` / `MESSAGE_CONTENT` unless
the corresponding application flag (full or limited) is present. -/
def Bot.allowedIntents (b : Bot) : Nat :=
  let intents := Intents.all
  let intents :=
    if !(flagsIntersect b.applicationFlags
        (ApplicationFlags.GATEWAY_PRESENCE |||
         ApplicationFlags.GATEWAY_PRESENCE_LIMITED)) then
      flagsRemove intents Intents.GUILD_PRESENCES
    else intents
  let intents :=
    if !(flagsIntersect b.applicationFlags
        (ApplicationFlags.GATEWAY_GUILD_MEMBERS |||
         ApplicationFlags.GATEWAY_GUILD_MEMBERS_LIMITED)) then
      flagsRemove intents Intents.GUILD_MEMBERS
    else intents
  let intents :=
    if !(flagsIntersect b.applicationFlags
        (ApplicationFlags.GATEWAY_MESSAGE_CONTENT |||
         ApplicationFlags.GATEWAY_MESSAGE_CONTENT_LIMITED)) then
      flagsRemove intents Intents.MESSAGE_CONTENT
    else intents
  intents

/-! ## Gateway envelope (`handler.rs`) -/

/-- `twilight_model` `Hello` payload. -/
structure Hello where
  heartbeatInterval : Nat
  deriving DecidableEq, Repr

/-- The partial-application view of the bot (`impl Into<PartialApplication>
for &Bot` in `config.rs`): just id and flags. -/
structure ApplicationView where
  id : Nat
  flags : Nat
  deriving DecidableEq, Repr

/-- `ImageHash::parse` from the external `twilight_model` crate, kept
abstract: the hash is retained in textual form. The validation is external
to this repository and is modelled as always succeeding. -/
def imageHashParse (s : String) : Option String := some s

/-- The current-user view of the bot (`impl Into<CurrentUser> for &Bot`
in `config.rs`); several fields are hardcoded for bots. -/
structure CurrentUser where
  accentColor : Option Nat
  avatar : Option String
  banner : Option String
  bot : Bool
  discriminator : Nat
  email : Option String
  flags : Option Nat
  id : Nat
  locale : Option String
  mfaEnabled : Bool
  name : String
  premiumType : Option Nat
  publicFlags : Option Nat
  verified : Option Bool
  deriving DecidableEq, Repr

/-- `impl Into<CurrentUser> for &Bot` in `config.rs`. -/
def Bot.currentUser (b : Bot) : CurrentUser :=
  { accentColor := none
    avatar := b.avatar.bind imageHashParse
    banner := none
    bot := true
    discriminator := b.discriminator
    email := none
    flags := b.userFlags
    id := b.userId
    locale := none
    mfaEnabled := true
    name := b.name
    premiumType := none
    publicFlags := b.publicFlags
    verified := some true }

/-- `impl Into<PartialApplication> for &Bot` in `config.rs`. -/
def Bot.applicationView (b : Bot) : ApplicationView :=
  { id := b.applicationId, flags := b.applicationFlags }

/-- `twilight_model` `Ready` payload, with exactly the fields filled in by
`GatewayEventData::ready` in `handler.rs`. -/
structure Ready where
  application : ApplicationView
  guilds : List JsonValue
  resumeGatewayUrl : String
  sessionId : String
  shard : Option ShardId
  user : CurrentUser
  version : Nat

/-- `GatewayEventData` in `handler.rs`: the untagged payload of an
envelope. -/
inductive GatewayEventData where
  | hello (h : Hello)
  | identify (info : IdentifyInfo)
  | resume (info : ResumeInfo)
  | invalidSession (resumable : Bool)
  | ready (r : Ready)
  | heartbeat (seq : Nat)
  | rawDispatch (eventType : String) (data : JsonValue)
  | resumed

/-- `const HEARTBEAT_INTERVAL` in `handler.rs`. -/
def HEARTBEAT_INTERVAL : Nat := 41250

/-- `const READY_VERSION` in `handler.rs`. -/
def READY_VERSION : Nat := 6

/-- `GatewayEventData::hello` factory. -/
def GatewayEventData.mkHello : GatewayEventData :=
  .hello { heartbeatInterval := HEARTBEAT_INTERVAL }

/-- `GatewayEventData::ready` factory: the payload copies
`resume_gateway_url` from configuration, uses empty `guilds`,
version `6`, and the two projected bot views. -/
def GatewayEventData.mkReady (cfg : Config) (sessionId : String)
    (shard : Option ShardId) : GatewayEventData :=
  .ready
    { application := cfg.bot.applicationView
      guilds := []
      resumeGatewayUrl := cfg.externallyAccessibleUrl
      sessionId := sessionId
      shard := shard
      user := cfg.bot.currentUser
      version := READY_VERSION }

/-- `GatewayEventData::dispatch_event_name` in `handler.rs`. -/
def GatewayEventData.dispatchEventName : GatewayEventData → Option String
  | .ready _ => some "READY"
  | .resumed => some "RESUMED"
  | .rawDispatch eventType _ => some eventType
  | _ => none

/-- `PayloadError` in `handler.rs`. -/
inductive PayloadError where
  | invalidData
  deriving DecidableEq, Repr

/-- `GatewayEventData::into_identify`. -/
def GatewayEventData.intoIdentify :
    GatewayEventData → Except PayloadError IdentifyInfo
  | .identify info => .ok info
  | _ => .error .invalidData

/-- `GatewayEventData::into_resume`. -/
def GatewayEventData.intoResume :
    GatewayEventData → Except PayloadError ResumeInfo
  | .resume info => .ok info
  | _ => .error .invalidData

/-- `GatewayEvent` in `handler.rs`: the wire envelope. `t` and `s` are
populated only on dispatch frames. -/
structure GatewayEvent where
  t : Option String
  s : Option Nat
  op : OpCode
  d : Option GatewayEventData

/-- `GatewayEvent::into_identify`. -/
def GatewayEvent.intoIdentify (e : GatewayEvent) :
    Except PayloadError IdentifyInfo :=
  match e.d with
  | some data => data.intoIdentify
  | none => .error .invalidData

/-- `GatewayEvent::into_resume`. -/
def GatewayEvent.intoResume (e : GatewayEvent) :
    Except PayloadError ResumeInfo :=
  match e.d with
  | some data => data.intoResume
  | none => .error .invalidData

/-- `GatewayEvent::heartbeat_ack` in `handler.rs`. -/
def GatewayEvent.heartbeatAck : GatewayEvent :=
  { t := none, s := none, op := OpCode.HeartbeatAck, d := none }

/-- `GatewayEvent::heartbeat` in `handler.rs`. NOTE: the source really
sets `op: OpCode::HeartbeatAck` in this factory as well (handler.rs
line 100), identically to `heartbeat_ack`. -/
def GatewayEvent.mkHeartbeat : GatewayEvent :=
  { t := none, s := none, op := OpCode.HeartbeatAck, d := none }

/-- `impl From<(u64, GatewayEventData)> for GatewayEvent` in `handler.rs`:
the five non-dispatch payload kinds get `t = s = None` and their fixed
op code; the remaining kinds (Ready, Resumed, RawDispatch) are dispatch
frames with `t` from `dispatch_event_name` and `s` from the supplied
sequence (the Rust catch-all's `unreachable!` branch cannot be hit since
those are exactly the payloads with a dispatch event name). -/
def GatewayEvent.ofSeq (sequence : Nat) (event : GatewayEventData) :
    GatewayEvent :=
  match event with
  | .hello _ =>
    { t := none, s := none, op := OpCode.Hello, d := some event }
  | .heartbeat _ =>
    { t := none, s := none, op := OpCode.Heartbeat, d := some event }
  | .identify _ =>
    { t := none, s := none, op := OpCode.Identify, d := some event }
  | .resume _ =>
    { t := none, s := none, op := OpCode.Resume, d := some event }
  | .invalidSession _ =>
    { t := none, s := none, op := OpCode.InvalidSession, d := some event }
  | .ready _ =>
    { t := some "READY", s := some sequence, op := OpCode.Dispatch,
      d := some event }
  | .resumed =>
    { t := some "RESUMED", s := some sequence, op := OpCode.Dispatch,
      d := some event }
  | .rawDispatch eventType _ =>
    { t := some eventType, s := some sequence, op := OpCode.Dispatch,
      d := some event }

/-! ## Write side (`WriteHandle` in `handler.rs`)

The unbounded channel feeding the write-forwarder task preserves FIFO
order, so the write side is modelled as the ordered list of enqueued
messages plus the atomic sequence counter. -/

/-- A message enqueued towards the socket: either a serialised envelope
(`Message::Text`) or a close frame. -/
inductive Message where
  | text (event : GatewayEvent)
  | close (code : Nat) (reason : String)

/-- The state owned by a connection's `WriteHandle`: the FIFO queue of
enqueued messages and the `AtomicU64` dispatch sequence counter
(initialised to 0 in `Connection::new`). -/
structure WriteState where
  queue : List Message
  sequence : Nat

/-- The write state of a brand-new connection (`Connection::new`). -/
def WriteState.initial : WriteState := { queue := [], sequence := 0 }

/-- `WriteHandle::send`, parameterised by the outcome of JSON
serialisation (`simd_json::to_string`): on success the frame is
enqueued; on failure the error is logged and the frame dropped — the
call still returns `Ok`. -/
def WriteState.sendWith (ser : GatewayEvent → Bool) (w : WriteState)
    (event : GatewayEvent) : WriteState :=
  if ser event then { w with queue := w.queue ++ [Message.text event] }
  else w

/-- `WriteHandle::send_data`, parameterised by the serialiser outcome:
for a dispatch payload the sequence is allocated by fetch-and-add
(returning the previous value) *before* serialisation is attempted; for
non-dispatch payloads the counter is untouched and the sequence argument
is the unused `0`. -/
def WriteState.sendDataWith (ser : GatewayEvent → Bool) (w : WriteState)
    (event : GatewayEventData) : WriteState :=
  let sequence :=
    if event.dispatchEventName.isSome then w.sequence else 0
  let w' :=
    if event.dispatchEventName.isSome then
      { w with sequence := w.sequence + 1 }
    else w
  w'.sendWith ser (GatewayEvent.ofSeq sequence event)

/-- In the program every envelope that is actually constructed
serialises successfully (plain strings, integers, booleans and JSON
values), so the concrete model instantiates the serialiser with
constant success. -/
def serOk : GatewayEvent → Bool := fun _ => true

/-- `WriteHandle::send` in the concrete (always-serialisable) model. -/
def WriteState.send (w : WriteState) (event : GatewayEvent) : WriteState :=
  w.sendWith serOk event

/-- `WriteHandle::send_data` in the concrete model. -/
def WriteState.sendData (w : WriteState) (event : GatewayEventData) :
    WriteState :=
  w.sendDataWith serOk event

/-- `WriteHandle::close`: enqueue a close frame with the given code and
reason (`CloseCode::Normal` is 1000, `CloseCode::Library(n)` is `n`). -/
def WriteState.close (w : WriteState) (code : Nat) (reason : String) :
    WriteState :=
  { w with queue := w.queue ++ [Message.close code reason] }

/-! ## Connection state machine (`ConnectionState` in `handler.rs`) -/

/-- Error-message constants from `handler.rs`. -/
def PAYLOAD_DECODE_ERROR_MSG : String := "Error while decoding payload."

def DISALLOWED_INTENTS_ERROR_MSG : String := "Disallowed intent(s)."

def AUTHENTICATION_FAILED_ERROR_MSG : String := "Authentication failed."

/-- Rust `str::strip_prefix` specialised to the literal `"Bot "` used in
`handler.rs`: returns the remainder exactly when the token starts with
those four characters. -/
def stripBot (token : String) : Option String :=
  if List.isPrefixOf "Bot ".data token.data then
    some (String.mk (token.data.drop 4))
  else none

/-- The token check
`data.token.strip_prefix("Bot ").contains(&CONFIG.bot.token)`:
`Option::contains` compares the stripped remainder against the
configured bot token. -/
def tokenMatches (cfg : Config) (token : String) : Bool :=
  stripBot token == some cfg.bot.token

/-- `ConnectionState` in `handler.rs`: write handle, registry reference
and the `OnceLock` slot holding this connection's session id. -/
structure ConnState where
  writer : WriteState
  sessions : Sessions
  sessionId : Option String

/-- `ConnectionState::set_session_id`: `OnceLock::set` with the result
discarded — the first assignment wins, later assignments are silently
dropped. -/
def ConnState.setSessionId (cs : ConnState) (sessionId : String) :
    ConnState :=
  match cs.sessionId with
  | some _ => cs
  | none => { cs with sessionId := some sessionId }

/-- `ConnectionState::invalidate_session`: only when a session id has
been assigned, destroy it in the registry, emit `InvalidSession` with
the resumable flag as payload, then a normal (1000) close with empty
reason. With no assigned session id this is a no-op. -/
def ConnState.invalidateSession (cs : ConnState) (resumable : Bool) :
    ConnState :=
  match cs.sessionId with
  | some sessionId =>
    let cs := { cs with sessions := cs.sessions.destroySession sessionId }
    let cs :=
      { cs with
        writer :=
          cs.writer.sendData (GatewayEventData.invalidSession resumable) }
    { cs with writer := cs.writer.close 1000 "" }
  | none => cs

/-- `ConnectionState::process` in `handler.rs`, with the randomly
generated session id that `create_session` would produce supplied as
`freshId`. `set_ready` only spawns the script driver task and does not
change the connection state, so it does not appear here; the script
driver itself is `ConnState.runScript` below. -/
def ConnState.process (cfg : Config) (freshId : String) (cs : ConnState)
    (event : GatewayEvent) : ConnState :=
  match event.op with
  | OpCode.Identify =>
    match event.intoIdentify with
    | .ok data =>
      let allowedIntents := cfg.bot.allowedIntents
      if !(flagsContain allowedIntents data.intents) then
        { cs with
          writer := cs.writer.close 4014 DISALLOWED_INTENTS_ERROR_MSG }
      else if !(tokenMatches cfg data.token) then
        { cs with
          writer := cs.writer.close 4004 AUTHENTICATION_FAILED_ERROR_MSG }
      else
        let cs :=
          { cs with sessions := cs.sessions.createSession freshId data }
        let cs := cs.setSessionId freshId
        { cs with
          writer :=
            cs.writer.sendData
              (GatewayEventData.mkReady cfg freshId data.shard) }
    | .error _ => cs.invalidateSession false
  | OpCode.Resume =>
    match event.intoResume with
    | .ok data =>
      if !(tokenMatches cfg data.token) then
        { cs with
          writer := cs.writer.close 4004 AUTHENTICATION_FAILED_ERROR_MSG }
      else if cs.sessions.existsId data.sessionId
          && !cfg.scenarios.expiredSessions then
        let cs := cs.setSessionId data.sessionId
        { cs with writer := cs.writer.sendData GatewayEventData.resumed }
      else
        cs.invalidateSession false
    | .error _ => cs.invalidateSession false
  | OpCode.Heartbeat =>
    if !cfg.scenarios.unansweredHeartbeats then
      { cs with writer := cs.writer.send GatewayEvent.heartbeatAck }
    else cs
  | _ => cs

/-! ## Script actions (`script.rs`) -/

/-- `Action` in `script.rs`; the sleep duration is kept in
milliseconds. -/
inductive Action where
  | sleep (ms : Nat)
  | invalidateSession (resumable : Bool)
  | dispatch (eventType : String) (data : JsonValue)
  | heartbeat
  | randomMessageCreate
  | randomGuildCreate
  | gracefulClose
  | abruptClose

/-- One step of `script::run`: the effect of a single action on the
connection state. `Sleep` only suspends the driver; the reserved
actions are warned about and skipped. -/
def ConnState.runAction (cs : ConnState) (a : Action) : ConnState :=
  match a with
  | .sleep _ => cs
  | .invalidateSession resumable => cs.invalidateSession resumable
  | .dispatch eventType data =>
    { cs with
      writer :=
        cs.writer.sendData (GatewayEventData.rawDispatch eventType data) }
  | .heartbeat =>
    { cs with writer := cs.writer.send GatewayEvent.mkHeartbeat }
  | .randomMessageCreate => cs
  | .randomGuildCreate => cs
  | .gracefulClose => cs
  | .abruptClose => cs

/-- `script::run`: walk the shared action list in order. -/
def ConnState.runScript (cs : ConnState) (actions : List Action) :
    ConnState :=
  actions.foldl ConnState.runAction cs

/-! ## Read loop (`Connection::handle` in `handler.rs`) -/

/-- One inbound WebSocket message as seen by the read loop: a
text/binary frame either decodes into an envelope or fails JSON
decoding; other message kinds are skipped by the
`is_text() || is_binary()` guard. -/
inductive Inbound where
  | frame (decoded : Option GatewayEvent)
  | other

/-- One iteration of the read loop, paired with the session id
`create_session` would generate at this step. On decode failure the
connection is closed with code 4002 and the decode-error reason — and
the loop continues; otherwise the envelope goes to
`ConnectionState::process`. -/
def ConnState.handleFrame (cfg : Config) (cs : ConnState)
    (step : Inbound × String) : ConnState :=
  match step.1 with
  | .frame (some event) => cs.process cfg step.2 event
  | .frame none =>
    { cs with writer := cs.writer.close 4002 PAYLOAD_DECODE_ERROR_MSG }
  | .other => cs

/-- The state of a brand-new connection (`Connection::new`): fresh write
handle, shared registry, empty session-id slot. -/
def ConnState.fresh (sessions : Sessions) : ConnState :=
  { writer := WriteState.initial, sessions := sessions, sessionId := none }

/-- `Connection::handle`: send Hello first, then run the read loop over
the inbound messages (each paired with the fresh id of that step). -/
def Connection.handle (cfg : Config) (sessions : Sessions)
    (inbound : List (Inbound × String)) : ConnState :=
  let cs := ConnState.fresh sessions
  let cs :=
    { cs with writer := cs.writer.sendData GatewayEventData.mkHello }
  inbound.foldl (ConnState.handleFrame cfg) cs

/-! ## Write-side traces

Every outbound frame of a connection flows through its single write
handle. The call sites in the program are: `send_data` (Hello, Ready,
Resumed, InvalidSession, script dispatch), `send` of the two heartbeat
envelope constants, and `close`. A write-side trace is a list of such
calls. -/

/-- One call into the write handle. -/
inductive WriteOp where
  | data (event : GatewayEventData)
  | ack
  | hb
  | closeOp (code : Nat) (reason : String)

/-- Whether a write-op is a dispatch `send_data` (and hence advances the
sequence counter). -/
def WriteOp.isDispatch : WriteOp → Bool
  | .data event => event.dispatchEventName.isSome
  | _ => false

/-- Execute one write-op against the write state, under serialiser
outcome `ser`. -/
def WriteState.runOp (ser : GatewayEvent → Bool) (w : WriteState)
    (op : WriteOp) : WriteState :=
  match op with
  | .data event => w.sendDataWith ser event
  | .ack => w.sendWith ser GatewayEvent.heartbeatAck
  | .hb => w.sendWith ser GatewayEvent.mkHeartbeat
  | .closeOp code reason => w.close code reason

/-- Execute a write-side trace in order. -/
def WriteState.runOps (ser : GatewayEvent → Bool) (w : WriteState)
    (ops : List WriteOp) : WriteState :=
  ops.foldl (WriteState.runOp ser) w

/-- The sequence number of a message when it is a dispatch envelope. -/
def Message.dispatchSeq : Message → Option Nat
  | .text event => if event.op = OpCode.Dispatch then event.s else none
  | .close _ _ => none

/-- The sequence numbers of the dispatch frames in a queue, in emission
order. -/
def dispatchSeqs (msgs : List Message) : List Nat :=
  msgs.filterMap Message.dispatchSeq

/-- The consecutive naturals `a, a+1, …, a+n-1`. -/
def seqFrom (a n : Nat) : List Nat :=
  match n with
  | 0 => []
  | n + 1 => a :: seqFrom (a + 1) n

/-! ## Helper frame constructors and concrete fixtures -/

/-- An inbound Identify envelope carrying the given payload. -/
def identifyFrame (data : IdentifyInfo) : GatewayEvent :=
  { t := none, s := none, op := OpCode.Identify,
    d := some (GatewayEventData.identify data) }

/-- An inbound Resume envelope carrying the given payload. -/
def resumeFrame (data : ResumeInfo) : GatewayEvent :=
  { t := none, s := none, op := OpCode.Resume,
    d := some (GatewayEventData.resume data) }

/-- An inbound client heartbeat envelope whose payload body carries the
sequence value `n`. -/
def heartbeatFrame (n : Nat) : GatewayEvent :=
  { t := none, s := none, op := OpCode.Heartbeat,
    d := some (GatewayEventData.heartbeat n) }

/-- A malformed Identify: an Identify envelope whose payload is absent
(`into_identify` fails). -/
def malformedIdentifyFrame : GatewayEvent :=
  { t := none, s := none, op := OpCode.Identify, d := none }

/-- A malformed Resume: a Resume envelope whose payload is absent
(`into_resume` fails). -/
def malformedResumeFrame : GatewayEvent :=
  { t := none, s := none, op := OpCode.Resume, d := none }

/-- The rejection conditions of an Identify or Resume under which
`ConnectionState::process` calls `invalidate_session(false)`:
a malformed Identify payload, a malformed Resume payload, or a Resume
whose token matches but whose claimed session does not exist in the
registry or `scenarios.expired_sessions` is set. -/
def rejectsToInvalidate (cfg : Config) (cs : ConnState)
    (event : GatewayEvent) : Prop :=
  (event.op = OpCode.Identify
    ∧ event.intoIdentify = Except.error PayloadError.invalidData)
  ∨ (event.op = OpCode.Resume
    ∧ event.intoResume = Except.error PayloadError.invalidData)
  ∨ (event.op = OpCode.Resume
    ∧ ∃ data, event.intoResume = Except.ok data
      ∧ tokenMatches cfg data.token = true
      ∧ (cs.sessions.existsId data.sessionId
          && !cfg.scenarios.expiredSessions) = false)

/-- A serialiser outcome that fails exactly on the envelope carrying
sequence number 1 (used to exhibit a sequence gap). -/
def serDropSeqOne : GatewayEvent → Bool :=
  fun event => !(event.s == some 1)

/-- A concrete bot configuration (token `"T"`, no gateway flags). -/
def testBot : Bot :=
  { token := "T"
    applicationFlags := 0
    applicationId := 1
    userFlags := none
    userId := 2
    avatar := none
    discriminator := 7
    name := "mock"
    publicFlags := none }

/-- A concrete configuration with both fault scenarios off. -/
def testConfig : Config :=
  { logLevel := "info"
    port := 7878
    externallyAccessibleUrl := "ws://localhost:7878"
    scenarios := { unansweredHeartbeats := false, expiredSessions := false }
    bot := testBot
    mockData := { guilds := 0, users := 0, channels := 0, voiceStates := 0 } }

/-- `testConfig` with `scenarios.expired_sessions = true`. -/
def cfgExpired : Config :=
  { testConfig with
    scenarios := { unansweredHeartbeats := false, expiredSessions := true } }

/-- `testConfig` with `scenarios.unanswered_heartbeats = true`. -/
def cfgSilent : Config :=
  { testConfig with
    scenarios := { unansweredHeartbeats := true, expiredSessions := false } }

/-- A well-formed identify payload for `testConfig`: correct token,
empty intents. -/
def goodIdentify : IdentifyInfo :=
  { token := "Bot T", intents := 0, compress := false, shard := some (0, 1) }

/-- The session record `goodIdentify` creates. -/
def testSession : Session := Session.fromIdentify goodIdentify

/-- A connection that has already bound session id `"s0"` (after a
successful Identify) whose registry holds that session. -/
def boundConnState : ConnState :=
  { writer := WriteState.initial
    sessions := [("s0", testSession)]
    sessionId := some "s0" }

/-- The Hello envelope as sent by `Connection::handle` via `send_data`
(non-dispatch: absent `t` and `s`). -/
def helloEnvelope : GatewayEvent :=
  { t := none, s := none, op := OpCode.Hello,
    d := some GatewayEventData.mkHello }

/-- The InvalidSession envelope emitted by `invalidate_session(false)`
(non-dispatch: absent `t` and `s`; payload is the boolean `false`). -/
def invalidSessionFalseEnvelope : GatewayEvent :=
  { t := none, s := none, op := OpCode.InvalidSession,
    d := some (GatewayEventData.invalidSession false) }

/-- The READY dispatch envelope with sequence number `s` advertising
session `sid`. -/
def readyEnvelope (cfg : Config) (s : Nat) (sid : String)
    (shard : Option ShardId) : GatewayEvent :=
  { t := some "READY", s := some s, op := OpCode.Dispatch,
    d := some (GatewayEventData.mkReady cfg sid shard) }

/-- The raw-dispatch envelope with sequence number `s`, event name `et`
and JSON payload `j`. -/
def rawDispatchEnvelope (s : Nat) (et : String) (j : JsonValue) :
    GatewayEvent :=
  { t := some et, s := some s, op := OpCode.Dispatch,
    d := some (GatewayEventData.rawDispatch et j) }

/-- An identify payload requesting `GUILD_MEMBERS`, which `testConfig`
(no gateway flags) does not permit. -/
def disallowedIdentify : IdentifyInfo :=
  { token := "Bot T", intents := Intents.GUILD_MEMBERS, compress := false,
    shard := none }

/-! ## Helper lemmas -/

theorem dispatchSeqs_append (l₁ l₂ : List Message) :
    dispatchSeqs (l₁ ++ l₂) = dispatchSeqs l₁ ++ dispatchSeqs l₂ := by
  simp [dispatchSeqs]

theorem dispatchSeq_ofSeq_isSome (sequence : Nat) (event : GatewayEventData)
    (h : event.dispatchEventName.isSome = true) :
    Message.dispatchSeq (Message.text (GatewayEvent.ofSeq sequence event))
      = some sequence := by
  cases event <;> simp [GatewayEventData.dispatchEventName] at h <;>
    simp [GatewayEvent.ofSeq, Message.dispatchSeq]

theorem dispatchSeq_ofSeq_none (sequence : Nat) (event : GatewayEventData)
    (h : event.dispatchEventName = none) :
    Message.dispatchSeq (Message.text (GatewayEvent.ofSeq sequence event))
      = none := by
  cases event <;> simp [GatewayEventData.dispatchEventName] at h <;>
    simp [GatewayEvent.ofSeq, Message.dispatchSeq]

theorem seqFrom_length (a n : Nat) : (seqFrom a n).length = n := by
  induction n generalizing a with
  | zero => rfl
  | succ n ih => simp [seqFrom, ih]

theorem seqFrom_get (a n i : Nat) (h : i < (seqFrom a n).length) :
    (seqFrom a n).get ⟨i, h⟩ = a + i := by
  induction n generalizing a i with
  | zero => simp [seqFrom_length] at h
  | succ n ih =>
    cases i with
    | zero => simp [seqFrom]
    | succ i =>
      have h' : i < (seqFrom (a + 1) n).length := by
        rw [seqFrom_length] at h ⊢
        omega
      have hrec : (seqFrom a (n + 1)).get ⟨i + 1, h⟩
          = (seqFrom (a + 1) n).get ⟨i, h'⟩ := rfl
      rw [hrec, ih (a + 1) i h']
      omega

theorem seqFrom_adjacent {l : List Nat} {a n : Nat} (hl : l = seqFrom a n)
    (i : Nat) (h : i + 1 < l.length) :
    l.get ⟨i + 1, h⟩ = l.get ⟨i, Nat.lt_of_succ_lt h⟩ + 1 := by
  subst hl
  rw [seqFrom_get, seqFrom_get]
  omega

/-- `Sessions.existsId` is false on a registry from which the id was just
destroyed. -/
theorem existsId_destroy (m : Sessions) (sessionId : String) :
    (m.destroySession sessionId).existsId sessionId = false := by
  simp only [Sessions.destroySession, Sessions.existsId]
  rw [List.any_eq_false]
  intro p hp
  rw [List.mem_filter] at hp
  simpa using hp.2

/-! ## C5: the heartbeat script action -/

/-- C5: the claim says every execution of the `heartbeat` script action
emits a frame whose op code is `Heartbeat`, not `HeartbeatAck`. The
source's `GatewayEvent::heartbeat` factory (handler.rs line 96-103)
actually sets `op: OpCode::HeartbeatAck`, so the script action enqueues
an ack-shaped frame: the code contradicts the claim (and its own naming,
the factory being a byte-for-byte copy of `heartbeat_ack`). -/
theorem heartbeat_action_emits_ack_op (cs : ConnState) :
    (cs.runAction Action.heartbeat).writer.queue
      = cs.writer.queue ++ [Message.text GatewayEvent.mkHeartbeat]
    ∧ GatewayEvent.mkHeartbeat.op = OpCode.HeartbeatAck
    ∧ ¬ GatewayEvent.mkHeartbeat.op = OpCode.Heartbeat := by
  refine ⟨?_, rfl, by decide⟩
  simp [ConnState.runAction, WriteState.send, WriteState.sendWith, serOk]

/-! ## C7: heartbeat handling -/

/-- C7: for every client Heartbeat frame received (any payload body):
with `scenarios.unanswered_heartbeats = true` the state is unchanged
(nothing is emitted); otherwise exactly one `HeartbeatAck` envelope is
enqueued — an envelope with absent `s`, `t` and payload — and nothing
else changes (in particular the sequence counter, the registry and the
session binding are untouched). -/
theorem heartbeat_ack_reply (cfg : Config) (freshId : String)
    (cs : ConnState) (event : GatewayEvent)
    (hop : event.op = OpCode.Heartbeat) :
    (cfg.scenarios.unansweredHeartbeats = true →
      cs.process cfg freshId event = cs)
  ∧ (cfg.scenarios.unansweredHeartbeats = false →
      cs.process cfg freshId event
        = { cs with
            writer :=
              { cs.writer with
                queue :=
                  cs.writer.queue ++ [Message.text GatewayEvent.heartbeatAck] } })
  ∧ GatewayEvent.heartbeatAck.op = OpCode.HeartbeatAck
  ∧ GatewayEvent.heartbeatAck.s = none
  ∧ GatewayEvent.heartbeatAck.t = none
  ∧ GatewayEvent.heartbeatAck.d = none := by
  refine ⟨?_, ?_, rfl, rfl, rfl, rfl⟩
  · intro h
    simp [ConnState.process, hop, h]
  · intro h
    simp [ConnState.process, hop, h, WriteState.send, WriteState.sendWith,
      serOk]

/-- Witness for C7 at a concrete input: heartbeat with payload sequence 5
against `testConfig` (scenario off) appends exactly one ack envelope. -/
theorem heartbeat_ack_reply_witness :
    (ConnState.fresh Sessions.new).process testConfig "f" (heartbeatFrame 5)
      = { ConnState.fresh Sessions.new with
          writer :=
            { (ConnState.fresh Sessions.new).writer with
              queue :=
                (ConnState.fresh Sessions.new).writer.queue
                  ++ [Message.text GatewayEvent.heartbeatAck] } } :=
  (heartbeat_ack_reply testConfig "f" (ConnState.fresh Sessions.new)
    (heartbeatFrame 5) rfl).2.1 rfl

/-! ## C8: destroy_session is idempotent -/

/-- C8: `destroy_session` twice on the same id equals `destroy_session`
once, and destroying an id that is not present leaves the registry
unchanged. -/
theorem destroy_session_idempotent (m : Sessions) (sessionId : String) :
    (m.destroySession sessionId).destroySession sessionId
      = m.destroySession sessionId
    ∧ (m.existsId sessionId = false → m.destroySession sessionId = m) := by
  constructor
  · simp [Sessions.destroySession, List.filter_filter]
  · intro h
    rw [Sessions.existsId, List.any_eq_false] at h
    rw [Sessions.destroySession, List.filter_eq_self]
    intro p hp
    simpa using h p hp

/-- Witness for C8 at a concrete registry: a one-entry registry and an
absent id. -/
theorem destroy_session_idempotent_witness :
    (Sessions.destroySession
        (Sessions.destroySession [("s0", testSession)] "s0") "s0"
      = Sessions.destroySession [("s0", testSession)] "s0")
    ∧ (Sessions.destroySession [("s0", testSession)] "zz"
      = [("s0", testSession)]) :=
  ⟨(destroy_session_idempotent [("s0", testSession)] "s0").1,
   (destroy_session_idempotent [("s0", testSession)] "zz").2 (by decide)⟩

/-! ## The dispatch-sequence invariant of the write side -/

/-- Running a write-side trace under the always-successful serialiser:
the dispatch frames appended to the queue carry exactly the consecutive
sequence numbers starting at the current counter value, and the counter
advances by the number of dispatch `send_data` calls. -/
theorem runOps_serOk_spec (ops : List WriteOp) : ∀ w : WriteState,
    dispatchSeqs (WriteState.runOps serOk w ops).queue
      = dispatchSeqs w.queue
        ++ seqFrom w.sequence (ops.countP WriteOp.isDispatch)
    ∧ (WriteState.runOps serOk w ops).sequence
      = w.sequence + ops.countP WriteOp.isDispatch := by
  induction ops with
  | nil => intro w; simp [WriteState.runOps, seqFrom]
  | cons op ops ih =>
    intro w
    have hrun : WriteState.runOps serOk w (op :: ops)
        = WriteState.runOps serOk (WriteState.runOp serOk w op) ops := rfl
    rw [hrun]
    obtain ⟨ih1, ih2⟩ := ih (WriteState.runOp serOk w op)
    cases op with
    | data event =>
      by_cases h : event.dispatchEventName.isSome = true
      · have hw : WriteState.runOp serOk w (WriteOp.data event)
            = { queue :=
                  w.queue
                    ++ [Message.text (GatewayEvent.ofSeq w.sequence event)],
                sequence := w.sequence + 1 } := by
          simp [WriteState.runOp, WriteState.sendDataWith, h,
            WriteState.sendWith, serOk]
        rw [hw] at ih1 ih2 ⊢
        have hcount : (WriteOp.data event :: ops).countP WriteOp.isDispatch
            = ops.countP WriteOp.isDispatch + 1 := by
          simp [List.countP_cons, WriteOp.isDispatch, h]
        rw [hcount]
        constructor
        · rw [ih1, dispatchSeqs_append]
          have hone : dispatchSeqs
              [Message.text (GatewayEvent.ofSeq w.sequence event)]
              = [w.sequence] := by
            simp [dispatchSeqs, dispatchSeq_ofSeq_isSome w.sequence event h]
          rw [hone]
          show dispatchSeqs w.queue ++ [w.sequence]
              ++ seqFrom (w.sequence + 1) (ops.countP WriteOp.isDispatch)
            = dispatchSeqs w.queue
              ++ seqFrom w.sequence (ops.countP WriteOp.isDispatch + 1)
          rw [List.append_assoc]
          rfl
        · rw [ih2]
          show w.sequence + 1 + List.countP WriteOp.isDispatch ops
              = w.sequence + (List.countP WriteOp.isDispatch ops + 1)
          omega
      · have hnone : event.dispatchEventName = none := by
          cases hdn : event.dispatchEventName with
          | none => rfl
          | some name => rw [hdn] at h; simp at h
        have hw : WriteState.runOp serOk w (WriteOp.data event)
            = { queue :=
                  w.queue ++ [Message.text (GatewayEvent.ofSeq 0 event)],
                sequence := w.sequence } := by
          simp [WriteState.runOp, WriteState.sendDataWith, hnone,
            WriteState.sendWith, serOk]
        rw [hw] at ih1 ih2 ⊢
        have hcount : (WriteOp.data event :: ops).countP WriteOp.isDispatch
            = ops.countP WriteOp.isDispatch := by
          simp [List.countP_cons, WriteOp.isDispatch, hnone]
        rw [hcount]
        refine ⟨?_, ih2⟩
        rw [ih1, dispatchSeqs_append]
        have hzero : dispatchSeqs [Message.text (GatewayEvent.ofSeq 0 event)]
            = [] := by
          simp [dispatchSeqs, dispatchSeq_ofSeq_none 0 event hnone]
        rw [hzero, List.append_nil]
    | ack =>
      have hw : WriteState.runOp serOk w WriteOp.ack
          = { queue := w.queue ++ [Message.text GatewayEvent.heartbeatAck],
              sequence := w.sequence } := by
        simp [WriteState.runOp, WriteState.sendWith, serOk]
      rw [hw] at ih1 ih2 ⊢
      have hcount : (WriteOp.ack :: ops).countP WriteOp.isDispatch
          = ops.countP WriteOp.isDispatch := by
        simp [List.countP_cons, WriteOp.isDispatch]
      rw [hcount]
      refine ⟨?_, ih2⟩
      rw [ih1, dispatchSeqs_append]
      have hzero : dispatchSeqs [Message.text GatewayEvent.heartbeatAck]
          = [] := by decide
      rw [hzero, List.append_nil]
    | hb =>
      have hw : WriteState.runOp serOk w WriteOp.hb
          = { queue := w.queue ++ [Message.text GatewayEvent.mkHeartbeat],
              sequence := w.sequence } := by
        simp [WriteState.runOp, WriteState.sendWith, serOk]
      rw [hw] at ih1 ih2 ⊢
      have hcount : (WriteOp.hb :: ops).countP WriteOp.isDispatch
          = ops.countP WriteOp.isDispatch := by
        simp [List.countP_cons, WriteOp.isDispatch]
      rw [hcount]
      refine ⟨?_, ih2⟩
      rw [ih1, dispatchSeqs_append]
      have hzero : dispatchSeqs [Message.text GatewayEvent.mkHeartbeat]
          = [] := by decide
      rw [hzero, List.append_nil]
    | closeOp code reason =>
      have hw : WriteState.runOp serOk w (WriteOp.closeOp code reason)
          = { queue := w.queue ++ [Message.close code reason],
              sequence := w.sequence } := by
        simp [WriteState.runOp, WriteState.close]
      rw [hw] at ih1 ih2 ⊢
      have hcount :
          (WriteOp.closeOp code reason :: ops).countP WriteOp.isDispatch
          = ops.countP WriteOp.isDispatch := by
        simp [List.countP_cons, WriteOp.isDispatch]
      rw [hcount]
      refine ⟨?_, ih2⟩
      rw [ih1, dispatchSeqs_append]
      have hzero : dispatchSeqs [Message.close code reason] = [] := by
        simp [dispatchSeqs, Message.dispatchSeq]
      rw [hzero, List.append_nil]

/-! ## C3: consecutive dispatch sequence numbers -/

/-- C3: on any write-side trace of a connection (starting from the fresh
write handle), any two adjacent dispatch frames `f₁, f₂` in emission
order satisfy `f₂.s = f₁.s + 1`; and `send_data` of a non-dispatch
payload never advances the sequence counter. -/
theorem dispatch_sequence_consecutive (ops : List WriteOp) (i : Nat)
    (h : i + 1 < (dispatchSeqs
        (WriteState.runOps serOk WriteState.initial ops).queue).length) :
    (dispatchSeqs (WriteState.runOps serOk WriteState.initial ops).queue).get
        ⟨i + 1, h⟩
      = (dispatchSeqs
          (WriteState.runOps serOk WriteState.initial ops).queue).get
          ⟨i, Nat.lt_of_succ_lt h⟩ + 1
    ∧ ∀ (w : WriteState) (event : GatewayEventData),
        event.dispatchEventName = none →
        (w.sendData event).sequence = w.sequence := by
  constructor
  · have hq := (runOps_serOk_spec ops WriteState.initial).1
    have hq' : dispatchSeqs
        (WriteState.runOps serOk WriteState.initial ops).queue
        = seqFrom 0 (ops.countP WriteOp.isDispatch) := by
      rw [hq]
      rfl
    exact seqFrom_adjacent hq' i h
  · intro w event hnone
    simp [WriteState.sendData, WriteState.sendDataWith, hnone,
      WriteState.sendWith, serOk]

/-- Witness for C3: a trace of two script dispatches interleaved with a
heartbeat ack; the two dispatch frames carry sequence numbers 0 and 1. -/
theorem dispatch_sequence_consecutive_witness :
    (dispatchSeqs (WriteState.runOps serOk WriteState.initial
        [WriteOp.data (GatewayEventData.rawDispatch "A" JsonValue.null),
         WriteOp.ack,
         WriteOp.data (GatewayEventData.rawDispatch "B" JsonValue.null)]).queue).get
        ⟨0 + 1, by decide⟩
      = (dispatchSeqs (WriteState.runOps serOk WriteState.initial
          [WriteOp.data (GatewayEventData.rawDispatch "A" JsonValue.null),
           WriteOp.ack,
           WriteOp.data (GatewayEventData.rawDispatch "B" JsonValue.null)]).queue).get
          ⟨0, Nat.lt_of_succ_lt (by decide)⟩ + 1
    ∧ ∀ (w : WriteState) (event : GatewayEventData),
        event.dispatchEventName = none →
        (w.sendData event).sequence = w.sequence :=
  dispatch_sequence_consecutive
    [WriteOp.data (GatewayEventData.rawDispatch "A" JsonValue.null),
     WriteOp.ack,
     WriteOp.data (GatewayEventData.rawDispatch "B" JsonValue.null)]
    0 (by decide)

/-! ## C9: sequence numbers are consumed before serialisation -/

/-- C9: `send_data` allocates the dispatch sequence number by
fetch-and-add before serialisation is attempted: for a dispatch payload
the counter advances regardless of the serialiser outcome; if
serialisation fails no frame is enqueued but the number stays consumed;
hence there is an execution (a serialiser failing on exactly one frame)
whose two consecutively emitted dispatch frames differ in `s` by more
than 1. -/
theorem send_data_consumes_sequence_before_serialisation :
    (∀ (ser : GatewayEvent → Bool) (w : WriteState)
        (event : GatewayEventData),
        event.dispatchEventName.isSome = true →
        (w.sendDataWith ser event).sequence = w.sequence + 1)
    ∧ (∀ (ser : GatewayEvent → Bool) (w : WriteState)
        (event : GatewayEventData),
        event.dispatchEventName.isSome = true →
        ser (GatewayEvent.ofSeq w.sequence event) = false →
        (w.sendDataWith ser event).queue = w.queue)
    ∧ dispatchSeqs (WriteState.runOps serDropSeqOne WriteState.initial
        [WriteOp.data (GatewayEventData.rawDispatch "A" JsonValue.null),
         WriteOp.data (GatewayEventData.rawDispatch "B" JsonValue.null),
         WriteOp.data (GatewayEventData.rawDispatch "C" JsonValue.null)]).queue
      = [0, 2] := by
  refine ⟨?_, ?_, by decide⟩
  · intro ser w event h
    simp [WriteState.sendDataWith, h, WriteState.sendWith]
    cases hser : ser (GatewayEvent.ofSeq w.sequence event) <;> simp
  · intro ser w event h hser
    simp [WriteState.sendDataWith, h, WriteState.sendWith, hser]

/-- Witness for C9 at concrete inputs: a raw dispatch under a failing
serialiser consumes the sequence number while enqueuing nothing. -/
theorem send_data_consumes_sequence_witness :
    ((WriteState.initial.sendDataWith (fun _ => false)
        (GatewayEventData.rawDispatch "A" JsonValue.null)).sequence
      = WriteState.initial.sequence + 1)
    ∧ ((WriteState.initial.sendDataWith (fun _ => false)
        (GatewayEventData.rawDispatch "A" JsonValue.null)).queue
      = WriteState.initial.queue) :=
  ⟨send_data_consumes_sequence_before_serialisation.1 (fun _ => false)
      WriteState.initial (GatewayEventData.rawDispatch "A" JsonValue.null)
      rfl,
   send_data_consumes_sequence_before_serialisation.2.1 (fun _ => false)
      WriteState.initial (GatewayEventData.rawDispatch "A" JsonValue.null)
      rfl rfl⟩

/-! ## C1: InvalidSession on rejected Identify/Resume -/

/-- C1 counterexample: the claim says every rejection of a malformed
Identify/Resume — and every Resume whose session is unknown or expired —
emits `InvalidSession(false)` plus a normal close. On a fresh connection
(no bound session id) `invalidate_session` is a no-op: after a malformed
Identify, and likewise after a Resume of an existing session under
`scenarios.expired_sessions = true`, the queue holds only the Hello
frame — no InvalidSession frame and no close are emitted. -/
theorem invalid_session_not_emitted_on_fresh_connection :
    (Connection.handle testConfig Sessions.new
        [(Inbound.frame (some malformedIdentifyFrame), "f")]).writer.queue
      = [Message.text helloEnvelope]
    ∧ (Connection.handle cfgExpired [("s0", testSession)]
        [(Inbound.frame (some (resumeFrame
            { token := "Bot T", sessionId := "s0", seq := 3 })), "f")]).writer.queue
      = [Message.text helloEnvelope] :=
  ⟨rfl, rfl⟩

/-- C1 amended: when `process` rejects an Identify or Resume through
`invalidate_session(false)` — malformed payload, or a Resume whose
claimed session does not exist or `scenarios.expired_sessions` is set —
then *provided a session id has been bound to the connection*, the
server destroys that session and emits an `InvalidSession` frame with
payload `false` followed by a normal close (code 1000), without touching
the sequence counter; with no bound session id nothing at all happens. -/
theorem invalid_session_requires_bound_session (cfg : Config)
    (freshId : String) (cs : ConnState) (event : GatewayEvent)
    (h : rejectsToInvalidate cfg cs event) :
    (∀ sid, cs.sessionId = some sid →
        (cs.process cfg freshId event).writer.queue
          = cs.writer.queue
            ++ [Message.text invalidSessionFalseEnvelope,
                Message.close 1000 ""]
        ∧ (cs.process cfg freshId event).sessions
          = cs.sessions.destroySession sid
        ∧ (cs.process cfg freshId event).writer.sequence
          = cs.writer.sequence)
    ∧ (cs.sessionId = none → cs.process cfg freshId event = cs) := by
  have hproc : cs.process cfg freshId event = cs.invalidateSession false := by
    rcases h with ⟨hop, hdata⟩ | ⟨hop, hdata⟩ | ⟨hop, data, hdata, htok, hcond⟩
    · simp [ConnState.process, hop, hdata]
    · simp [ConnState.process, hop, hdata]
    · simp [ConnState.process, hop, hdata, htok, hcond]
  rw [hproc]
  constructor
  · intro sid hsid
    refine ⟨?_, ?_, ?_⟩ <;>
      simp [ConnState.invalidateSession, hsid, WriteState.sendData,
        WriteState.sendDataWith, GatewayEventData.dispatchEventName,
        WriteState.sendWith, serOk, WriteState.close, GatewayEvent.ofSeq,
        invalidSessionFalseEnvelope]
  · intro hsid
    simp [ConnState.invalidateSession, hsid]

/-- Witness for C1 (amended) at a concrete input: a connection bound to
session `"s0"` receiving a malformed Identify. -/
theorem invalid_session_requires_bound_session_witness :
    (boundConnState.process testConfig "f" malformedIdentifyFrame).writer.queue
      = boundConnState.writer.queue
        ++ [Message.text invalidSessionFalseEnvelope,
            Message.close 1000 ""]
    ∧ (boundConnState.process testConfig "f" malformedIdentifyFrame).sessions
      = Sessions.destroySession boundConnState.sessions "s0"
    ∧ (boundConnState.process testConfig "f" malformedIdentifyFrame).writer.sequence
      = boundConnState.writer.sequence :=
  (invalid_session_requires_bound_session testConfig "f" boundConnState
      malformedIdentifyFrame (Or.inl ⟨rfl, rfl⟩)).1 "s0" rfl

/-! ## C4: behaviour after a JSON decode failure -/

/-- C4 counterexample: the claim says a decode failure closes with 4002
and transitions to `Closed`, so no later inbound frame is processed. In
the source the read loop has no such transition: here a heartbeat that
arrives *after* the malformed frame is still processed, and its ack is
enqueued after the 4002 close frame. -/
theorem decode_failure_does_not_stop_processing :
    (Connection.handle testConfig Sessions.new
        [(Inbound.frame none, "a"),
         (Inbound.frame (some (heartbeatFrame 1)), "b")]).writer.queue
      = [Message.text helloEnvelope,
         Message.close 4002 PAYLOAD_DECODE_ERROR_MSG,
         Message.text GatewayEvent.heartbeatAck] := rfl

/-- C4 amended: after an inbound frame fails JSON decoding the server
enqueues a close frame with code 4002 and reason "Error while decoding
payload." — but it does not transition to a closed state: the read loop
continues, and the remaining inbound frames are processed exactly as
they would be from the state with the close appended. -/
theorem decode_failure_closes_4002_and_continues (cfg : Config)
    (cs : ConnState) (freshId : String) (rest : List (Inbound × String)) :
    List.foldl (ConnState.handleFrame cfg) cs
        ((Inbound.frame none, freshId) :: rest)
      = List.foldl (ConnState.handleFrame cfg)
          { cs with
            writer := cs.writer.close 4002 PAYLOAD_DECODE_ERROR_MSG } rest
    ∧ (cs.writer.close 4002 PAYLOAD_DECODE_ERROR_MSG).queue
      = cs.writer.queue ++ [Message.close 4002 PAYLOAD_DECODE_ERROR_MSG] :=
  ⟨rfl, rfl⟩

/-! ## Token characterisation -/

theorem stripBot_eq_some_iff (t r : String) :
    stripBot t = some r ↔ t.data = 'B' :: 'o' :: 't' :: ' ' :: r.data := by
  unfold stripBot
  by_cases hp : List.isPrefixOf "Bot ".data t.data = true
  · rw [if_pos hp]
    rw [List.isPrefixOf_iff_prefix] at hp
    obtain ⟨q, hq⟩ := hp
    constructor
    · intro h
      have hr : String.mk (t.data.drop 4) = r := Option.some.inj h
      have hq4 : String.mk (t.data.drop 4) = String.mk q := by
        rw [← hq]
        rfl
      have hrq : r = String.mk q := hr.symm.trans hq4
      rw [← hq, hrq]
      rfl
    · intro h
      rw [h]
      rfl
  · rw [if_neg hp]
    constructor
    · intro h
      simp at h
    · intro h
      refine absurd ?_ hp
      rw [List.isPrefixOf_iff_prefix, h]
      exact ⟨r.data, rfl⟩

/-- The token check of `handler.rs` accepts exactly the strings of the
form `"Bot "` followed by the configured bot token. -/
theorem tokenMatches_iff_concat (cfg : Config) (token : String) :
    tokenMatches cfg token = true ↔ token = "Bot " ++ cfg.bot.token := by
  unfold tokenMatches
  rw [beq_iff_eq, stripBot_eq_some_iff]
  constructor
  · intro h
    apply String.ext
    rw [h, String.data_append]
    rfl
  · intro h
    rw [h, String.data_append]
    rfl

/-! ## C2: the sequence numbers of READY and the first script dispatch -/

/-- C2 counterexample: the claim says READY carries `s = 1` (and the
first script dispatch `s = 2`). On a happy identify against the fresh
connection the READY frame actually carries `s = some 0`, which is not
`some 1`: the counter starts at 0 and `fetch_add` returns the previous
value. -/
theorem ready_sequence_not_one :
    (Connection.handle testConfig Sessions.new
        [(Inbound.frame (some (identifyFrame goodIdentify)), "sid1")]).writer.queue
      = [Message.text helloEnvelope,
         Message.text (readyEnvelope testConfig 0 "sid1" (some (0, 1)))]
    ∧ ¬ (readyEnvelope testConfig 0 "sid1" (some (0, 1))).s = some 1 :=
  ⟨rfl, by decide⟩

/-- C2 amended: on every connection, the READY dispatch emitted for the
first successful Identify carries sequence `s = 0` (Hello, being
non-dispatch, does not consume a number), and the first script-produced
dispatch after it carries `s = 1`. -/
theorem ready_sequence_zero_then_one (cfg : Config) (sessions : Sessions)
    (freshId et : String) (j : JsonValue) (data : IdentifyInfo)
    (hi : flagsContain cfg.bot.allowedIntents data.intents = true)
    (ht : tokenMatches cfg data.token = true) :
    ((Connection.handle cfg sessions
        [(Inbound.frame (some (identifyFrame data)), freshId)]).runScript
          [Action.dispatch et j]).writer.queue
      = [Message.text helloEnvelope,
         Message.text (readyEnvelope cfg 0 freshId data.shard),
         Message.text (rawDispatchEnvelope 1 et j)] := by
  simp [Connection.handle, ConnState.fresh, ConnState.handleFrame,
    ConnState.process, identifyFrame, GatewayEvent.intoIdentify,
    GatewayEventData.intoIdentify, hi, ht, ConnState.runScript,
    ConnState.runAction, ConnState.setSessionId, WriteState.sendData,
    WriteState.sendDataWith, WriteState.sendWith, serOk, WriteState.initial,
    GatewayEvent.ofSeq, GatewayEventData.dispatchEventName, helloEnvelope,
    readyEnvelope, rawDispatchEnvelope, GatewayEventData.mkHello,
    GatewayEventData.mkReady]

/-- Witness for C2 (amended): the concrete happy identify followed by the
script `dispatch MESSAGE_CREATE {"id":"1"}`. -/
theorem ready_sequence_zero_then_one_witness :
    ((Connection.handle testConfig Sessions.new
        [(Inbound.frame (some (identifyFrame goodIdentify)), "sid1")]).runScript
          [Action.dispatch "MESSAGE_CREATE"
            (JsonValue.obj [("id", JsonValue.str "1")])]).writer.queue
      = [Message.text helloEnvelope,
         Message.text (readyEnvelope testConfig 0 "sid1" (some (0, 1))),
         Message.text (rawDispatchEnvelope 1 "MESSAGE_CREATE"
           (JsonValue.obj [("id", JsonValue.str "1")]))] :=
  ready_sequence_zero_then_one testConfig Sessions.new "sid1" "MESSAGE_CREATE"
    (JsonValue.obj [("id", JsonValue.str "1")]) goodIdentify (by decide)
    (by decide)

/-! ## C6: intent check precedes token check -/

/-- C6: for a parseable Identify, if the requested intents are not a
subset of the permitted intents the connection is closed with 4014 and
"Disallowed intent(s)." regardless of the token — the outcome is
identical for any two tokens, so the token is not examined; only once
the intent check passes does the token check run, closing with 4004 and
"Authentication failed." on failure; and the token check accepts exactly
`"Bot "` followed by the configured token. -/
theorem intent_check_precedes_token_check (cfg : Config) (freshId : String)
    (cs : ConnState) (data : IdentifyInfo) :
    (flagsContain cfg.bot.allowedIntents data.intents = false →
      ∀ t₁ t₂ : String,
        (cs.process cfg freshId
            (identifyFrame { data with token := t₁ })).writer.queue
          = cs.writer.queue
            ++ [Message.close 4014 DISALLOWED_INTENTS_ERROR_MSG]
        ∧ cs.process cfg freshId (identifyFrame { data with token := t₁ })
          = cs.process cfg freshId (identifyFrame { data with token := t₂ }))
    ∧ (flagsContain cfg.bot.allowedIntents data.intents = true →
        tokenMatches cfg data.token = false →
        (cs.process cfg freshId (identifyFrame data)).writer.queue
          = cs.writer.queue
            ++ [Message.close 4004 AUTHENTICATION_FAILED_ERROR_MSG])
    ∧ (tokenMatches cfg data.token = true
        ↔ data.token = "Bot " ++ cfg.bot.token) := by
  refine ⟨?_, ?_, tokenMatches_iff_concat cfg data.token⟩
  · intro hi t₁ t₂
    constructor
    · simp [ConnState.process, identifyFrame, GatewayEvent.intoIdentify,
        GatewayEventData.intoIdentify, hi, WriteState.close]
    · simp [ConnState.process, identifyFrame, GatewayEvent.intoIdentify,
        GatewayEventData.intoIdentify, hi]
  · intro hi ht
    simp [ConnState.process, identifyFrame, GatewayEvent.intoIdentify,
      GatewayEventData.intoIdentify, hi, ht, WriteState.close]

/-- Witness for C6: under `testConfig` (no members flag) an Identify
requesting `GUILD_MEMBERS` with the wrong token `"x"` closes 4014 — and
behaves identically to the same Identify with the correct token. -/
theorem intent_check_precedes_token_check_witness :
    ((ConnState.fresh Sessions.new).process testConfig "f"
        (identifyFrame { disallowedIdentify with token := "x" })).writer.queue
      = (ConnState.fresh Sessions.new).writer.queue
        ++ [Message.close 4014 DISALLOWED_INTENTS_ERROR_MSG]
    ∧ (ConnState.fresh Sessions.new).process testConfig "f"
        (identifyFrame { disallowedIdentify with token := "x" })
      = (ConnState.fresh Sessions.new).process testConfig "f"
        (identifyFrame { disallowedIdentify with token := "Bot T" }) :=
  (intent_check_precedes_token_check testConfig "f"
      (ConnState.fresh Sessions.new) disallowedIdentify).1 (by decide)
    "x" "Bot T"

/-! ## C10: a second Identify on a bound connection -/

theorem getSession_insert (m : Sessions) (sid : String) (s : Session) :
    (m.insert sid s).getSession sid = some s := by
  simp [Sessions.insert, Sessions.getSession, List.find?]

theorem getSession_destroy_ne (m : Sessions) (sid sid0 : String)
    (h : (sid == sid0) = false) :
    (m.destroySession sid0).getSession sid = m.getSession sid := by
  induction m with
  | nil => rfl
  | cons p rest ih =>
    by_cases hp : (p.1 == sid0) = true
    · have hps : (p.1 == sid) = false := by
        rw [beq_iff_eq] at hp
        subst hp
        rw [beq_eq_false_iff_ne] at h ⊢
        exact fun hss => h hss.symm
      simp only [Sessions.destroySession, List.filter_cons, hp,
        Bool.not_true, if_neg, Bool.false_eq_true, not_false_iff]
      rw [show Sessions.destroySession rest sid0 = List.filter
            (fun p => !(p.1 == sid0)) rest from rfl] at ih
      rw [ih]
      simp [Sessions.getSession, List.find?, hps]
    · have hp' : (p.1 == sid0) = false := by
        cases hb : (p.1 == sid0) with
        | false => rfl
        | true => exact absurd hb hp
      simp only [Sessions.destroySession, List.filter_cons, hp',
        Bool.not_false, if_pos]
      rw [show Sessions.destroySession rest sid0 = List.filter
            (fun p => !(p.1 == sid0)) rest from rfl] at ih
      cases hps : (p.1 == sid) with
      | true =>
        simp [Sessions.getSession, List.find?, hps]
      | false =>
        simp only [Sessions.getSession, List.find?, hps]
        exact ih

/-- C10: when a connection whose session-id slot is already bound to
`sid0` processes a second valid Identify (generated id `sid1`): a new
session record is inserted in the registry under `sid1`; the READY reply
advertises `sid1`; but the connection's bound session id silently stays
`sid0` (the `OnceLock` set is discarded) — so a subsequent
`invalidate_session` destroys `sid0`, never the new `sid1` record, which
survives in the registry. -/
theorem second_identify_discards_binding (cfg : Config) (cs : ConnState)
    (data : IdentifyInfo) (sid0 sid1 : String)
    (hsid : cs.sessionId = some sid0)
    (hi : flagsContain cfg.bot.allowedIntents data.intents = true)
    (ht : tokenMatches cfg data.token = true)
    (hne : (sid1 == sid0) = false) :
    (cs.process cfg sid1 (identifyFrame data)).sessions.getSession sid1
      = some (Session.fromIdentify data)
    ∧ (cs.process cfg sid1 (identifyFrame data)).writer.queue
      = cs.writer.queue
        ++ [Message.text
              (readyEnvelope cfg cs.writer.sequence sid1 data.shard)]
    ∧ (cs.process cfg sid1 (identifyFrame data)).sessionId = some sid0
    ∧ (((cs.process cfg sid1 (identifyFrame data)).invalidateSession
          false).sessions.getSession sid1 = some (Session.fromIdentify data))
    ∧ (((cs.process cfg sid1 (identifyFrame data)).invalidateSession
          false).sessions.existsId sid0 = false) := by
  have hproc : cs.process cfg sid1 (identifyFrame data)
      = { writer :=
            cs.writer.sendData (GatewayEventData.mkReady cfg sid1 data.shard),
          sessions := cs.sessions.createSession sid1 data,
          sessionId := some sid0 } := by
    simp [ConnState.process, identifyFrame, GatewayEvent.intoIdentify,
      GatewayEventData.intoIdentify, hi, ht, ConnState.setSessionId, hsid]
  rw [hproc]
  refine ⟨getSession_insert cs.sessions sid1 (Session.fromIdentify data),
    ?_, rfl, ?_, ?_⟩
  · simp [WriteState.sendData, WriteState.sendDataWith, WriteState.sendWith,
      serOk, GatewayEvent.ofSeq, GatewayEventData.dispatchEventName,
      GatewayEventData.mkReady, readyEnvelope]
  · show ((Sessions.createSession cs.sessions sid1 data).destroySession
        sid0).getSession sid1 = some (Session.fromIdentify data)
    rw [getSession_destroy_ne _ _ _ hne]
    exact getSession_insert cs.sessions sid1 (Session.fromIdentify data)
  · show ((Sessions.createSession cs.sessions sid1 data).destroySession
        sid0).existsId sid0 = false
    exact existsId_destroy _ sid0

/-- Witness for C10: a connection bound to `"s0"` holding that session
receives a second valid Identify with generated id `"s1"`. -/
theorem second_identify_discards_binding_witness :
    (boundConnState.process testConfig "s1"
        (identifyFrame goodIdentify)).sessions.getSession "s1"
      = some (Session.fromIdentify goodIdentify)
    ∧ (boundConnState.process testConfig "s1"
        (identifyFrame goodIdentify)).writer.queue
      = boundConnState.writer.queue
        ++ [Message.text (readyEnvelope testConfig
              boundConnState.writer.sequence "s1" goodIdentify.shard)]
    ∧ (boundConnState.process testConfig "s1"
        (identifyFrame goodIdentify)).sessionId = some "s0"
    ∧ (((boundConnState.process testConfig "s1"
          (identifyFrame goodIdentify)).invalidateSession
            false).sessions.getSession "s1"
        = some (Session.fromIdentify goodIdentify))
    ∧ (((boundConnState.process testConfig "s1"
          (identifyFrame goodIdentify)).invalidateSession
            false).sessions.existsId "s0" = false) :=
  second_identify_discards_binding testConfig boundConnState goodIdentify
    "s0" "s1" rfl (by decide) (by decide) (by decide)

end MockGateway
